import Mathlib

/-!
Verification of the datahub GCP / BigQuery configuration modules.

Shallow embedding of three Python modules:
- `metadata-ingestion/src/datahub/ingestion/source/gcp/gcs_util.py`
- `metadata-ingestion/src/datahub/ingestion/source/gcp/gcp_common.py`
- `metadata-ingestion/src/datahub/ingestion/source_config/usage/bigquery_usage.py`

The modules are pydantic (v1) configuration models.  The embedding makes the
pydantic runtime semantics explicit:
- fields are validated in definition order (inherited fields first);
- a `validator` without `always=True` runs only when the field is supplied in
  the input; when the field is omitted the default is used and the validator
  is skipped;
- a validator may mutate the dict of already-validated values (`values`), and
  those mutations persist into the constructed object;
- a raising validator aborts construction; no object is produced.

Input mappings are embedded as structures of `Option` fields where `none`
means the field was omitted from the input.  File-system and environment
effects are embedded as explicit state passing over a `World` record.  JSON
documents are embedded as `Json` values; the text encoding and decoding
performed by the Python `json` standard library (external to this repository)
is treated as a faithful bijection between text and `Json` values.
-/

/-- JSON values, restricted to the shapes produced by the credential
serialization in `gcp_common.py`: strings, null, and flat objects. -/
inductive Json where
  | str : String → Json
  | null : Json
  | obj : List (String × Json) → Json

/-- Process state visible to the configuration code: the environment
variables, the file system (path to JSON content), and a counter feeding the
temporary-file name generator. -/
structure World where
  env : List (String × String)
  files : List (String × Json)
  nextTemp : Nat

/-- Modelled from the spec: `tempfile.NamedTemporaryFile` gives each call a
platform-chosen unique file name (spec section 5: relies on the platform
guarantee of a unique filename per call).  The generator is embedded as an
injective sequence of names indexed by the `World` counter. -/
def tempName (n : Nat) : String :=
  "/tmp/tmp" ++ String.mk (List.replicate n 'x')

/-- Setting an environment variable: the freshest binding shadows older ones,
`List.lookup` reads the freshest binding. -/
def envSet (env : List (String × String)) (key val : String) :
    List (String × String) :=
  (key, val) :: env

/-! ## gcs_util.py -/

def GCS_PREFIX : String := "gs://"

/-- Embedding of `is_gcs_uri`: `uri.startswith(GCS_PREFIX)`.  A Python `str`
is a sequence of characters and `startswith` tests whether the argument is a
prefix of that sequence; the test is embedded on the character lists. -/
def is_gcs_uri (uri : String) : Bool :=
  List.isPrefixOf GCS_PREFIX.toList uri.toList

/-! ## gcp_common.py : GCPServiceAccountKey -/

/-- Input mapping for `GCPServiceAccountKey`.  `none` means the field was
omitted from the input; a supplied field is a string. -/
structure GCPServiceAccountKeyInput where
  project_id : Option String := none
  private_key_id : Option String := none
  private_key : Option String := none
  client_email : Option String := none
  client_id : Option String := none
  auth_uri : Option String := none
  token_uri : Option String := none
  auth_provider_x509_cert_url : Option String := none
  type : Option String := none
  client_x509_cert_url : Option String := none

/-- The validated `GCPServiceAccountKey` model.  `client_x509_cert_url` keeps
its schema type `Optional[str]`; the root validator fills it, so constructed
objects always carry `some`. -/
structure GCPServiceAccountKey where
  project_id : String
  private_key_id : String
  private_key : String
  client_email : String
  client_id : String
  auth_uri : String
  token_uri : String
  auth_provider_x509_cert_url : String
  type : String
  client_x509_cert_url : Option String
deriving DecidableEq

/-- Embedding of the `root_validator` `validate_config`: when
`client_x509_cert_url` is absent it is derived from `client_email`. -/
def GCPServiceAccountKey.validate_config (k : GCPServiceAccountKey) :
    GCPServiceAccountKey :=
  match k.client_x509_cert_url with
  | none =>
    { k with
        client_x509_cert_url :=
          some ("https://www.googleapis.com/robot/v1/metadata/x509/"
            ++ k.client_email) }
  | some _ => k

/-- Pydantic construction of `GCPServiceAccountKey` from an input mapping:
the five fields without defaults must be supplied, the remaining string
fields fall back to their declared defaults, then the root validator runs. -/
def GCPServiceAccountKey.parse (i : GCPServiceAccountKeyInput) :
    Option GCPServiceAccountKey :=
  match i.project_id, i.private_key_id, i.private_key,
      i.client_email, i.client_id with
  | some project_id, some private_key_id, some private_key,
      some client_email, some client_id =>
    some (GCPServiceAccountKey.validate_config
      { project_id := project_id
        private_key_id := private_key_id
        private_key := private_key
        client_email := client_email
        client_id := client_id
        auth_uri := i.auth_uri.getD "https://accounts.google.com/o/oauth2/auth"
        token_uri := i.token_uri.getD "https://oauth2.googleapis.com/token"
        auth_provider_x509_cert_url := i.auth_provider_x509_cert_url.getD
          "https://www.googleapis.com/oauth2/v1/certs"
        type := i.type.getD "service_account"
        client_x509_cert_url := i.client_x509_cert_url })
  | _, _, _, _, _ => none

/-- An optional string as a JSON value, as the Python `json` module encodes
`Optional[str]` values of a pydantic `dict()`. -/
def optJson : Option String → Json
  | some s => Json.str s
  | none => Json.null

/-- Embedding of `self.dict()`: the field mapping of the model, in field
definition order. -/
def GCPServiceAccountKey.dict (k : GCPServiceAccountKey) :
    List (String × Json) :=
  [("project_id", Json.str k.project_id),
   ("private_key_id", Json.str k.private_key_id),
   ("private_key", Json.str k.private_key),
   ("client_email", Json.str k.client_email),
   ("client_id", Json.str k.client_id),
   ("auth_uri", Json.str k.auth_uri),
   ("token_uri", Json.str k.token_uri),
   ("auth_provider_x509_cert_url", Json.str k.auth_provider_x509_cert_url),
   ("type", Json.str k.type),
   ("client_x509_cert_url", optJson k.client_x509_cert_url)]

/-- Reading a string member of a parsed JSON object. -/
def getStr (fields : List (String × Json)) (name : String) : Option String :=
  match fields.lookup name with
  | some (Json.str s) => some s
  | _ => none

/-- Parsing a JSON document back into a `GCPServiceAccountKey` input mapping,
as feeding the parsed JSON to the pydantic model would. -/
def GCPServiceAccountKeyInput.ofJson : Json → Option GCPServiceAccountKeyInput
  | Json.obj fields =>
    some
      { project_id := getStr fields "project_id"
        private_key_id := getStr fields "private_key_id"
        private_key := getStr fields "private_key"
        client_email := getStr fields "client_email"
        client_id := getStr fields "client_id"
        auth_uri := getStr fields "auth_uri"
        token_uri := getStr fields "token_uri"
        auth_provider_x509_cert_url := getStr fields "auth_provider_x509_cert_url"
        type := getStr fields "type"
        client_x509_cert_url := getStr fields "client_x509_cert_url" }
  | _ => none

/-- Embedding of `create_credential_temp_file`: serialize `self.dict()` to
JSON, write it to a newly created temporary file, return the file name. -/
def GCPServiceAccountKey.create_credential_temp_file
    (k : GCPServiceAccountKey) (w : World) : String × World :=
  let path := tempName w.nextTemp
  let cred_json := Json.obj k.dict
  (path,
   { w with files := (path, cred_json) :: w.files, nextTemp := w.nextTemp + 1 })

/-! ## gcp_common.py : GCPSourceConfig -/

/-- Modelled from the spec: `PlatformSourceConfigBase`
(`datahub.configuration.source_common`) is not part of the provided sources.
Per the spec (section 3 Usage Config invariants) it contributes the optional
`platform` and `platform_instance` fields; both are optional strings left
unset by default. -/
structure GCPSourceConfigInput where
  platform : Option String := none
  platform_instance : Option String := none
  credential : Option GCPServiceAccountKeyInput := none

/-- The validated `GCPSourceConfig` model: base platform fields, the optional
credential, and the private `_credentials_path` attribute. -/
structure GCPSourceConfig where
  platform : Option String
  platform_instance : Option String
  credential : Option GCPServiceAccountKey
  _credentials_path : Option String
deriving DecidableEq

/-- Embedding of `GCPSourceConfig.__init__`: pydantic validation of the
fields (`super().__init__`), then, when a credential is present, creation of
the temporary credential file and the write to the
`GOOGLE_APPLICATION_CREDENTIALS` environment variable.  A validation failure
raises out of `super().__init__` before any effect: the result is `none` and
the world is returned untouched. -/
def GCPSourceConfig.construct (i : GCPSourceConfigInput) (w : World) :
    Option GCPSourceConfig × World :=
  match i.credential with
  | none =>
    (some
      { platform := i.platform
        platform_instance := i.platform_instance
        credential := none
        _credentials_path := none }, w)
  | some ci =>
    match GCPServiceAccountKey.parse ci with
    | none => (none, w)
    | some k =>
      let r := k.create_credential_temp_file w
      (some
        { platform := i.platform
          platform_instance := i.platform_instance
          credential := some k
          _credentials_path := some r.1 },
       { r.2 with env := envSet r.2.env "GOOGLE_APPLICATION_CREDENTIALS" r.1 })

/-! ## bigquery_usage.py : BigQueryUsageConfig -/

/-- Modelled from the spec: `AllowDenyPattern`
(`datahub.configuration.common`) is not part of the provided sources.  The
spec glossary defines it as a pair of regex lists used to include or exclude
named entities. -/
structure AllowDenyPattern where
  allow : List String
  deny : List String
deriving DecidableEq

/-- Modelled from the spec: `AllowDenyPattern.allow_all()` is a pattern that
allows every name; with the regex-list include semantics of the glossary this
is the match-all regex in `allow` and an empty `deny`. -/
def AllowDenyPattern.allow_all : AllowDenyPattern :=
  { allow := [".*"], deny := [] }

/-- Python truthiness of an `AllowDenyPattern` value: a pydantic model
defines neither a boolean conversion nor a length, so every instance is
truthy. -/
def AllowDenyPattern.truthy (_ : AllowDenyPattern) : Bool := true

/-- The configuration errors raised by the `BigQueryUsageConfig` validators
and by nested schema validation.  Each constructor stands for one distinct
`ConfigurationError` or pydantic validation error of the source. -/
inductive ConfigError where
  /-- ConfigurationError: BigQuery project ids are globally unique, no
  platform_instance is needed. -/
  | platformInstanceMeaningless : ConfigError
  /-- ConfigurationError: exported BigQuery audit metadata requires v2 audit
  metadata. -/
  | exportedAuditMetadataRequiresV2 : ConfigError
  /-- Pydantic validation error inside the nested credential model. -/
  | credentialValidation : ConfigError
deriving DecidableEq

/-- Input mapping for `BigQueryUsageConfig`, restricted to the fields that
carry validators or are read by one, plus the inherited platform and
credential fields.  The remaining declared fields (client options, audit
dataset names, page sizes, time bounds, the dataset pattern, the temp table
prefix) carry no validator, are read by none, and cannot influence any
validated field.  `none` means the field was omitted from the input. -/
structure BigQueryUsageConfigInput where
  platform : Option String := none
  platform_instance : Option String := none
  credential : Option GCPServiceAccountKeyInput := none
  projects : Option (List String) := none
  project_id : Option String := none
  use_v2_audit_metadata : Option Bool := none
  use_exported_bigquery_audit_metadata : Option Bool := none
  table_pattern : Option AllowDenyPattern := none

/-- The validated `BigQueryUsageConfig` model (claim-relevant fields). -/
structure BigQueryUsageConfig where
  platform : Option String
  platform_instance : Option String
  credential : Option GCPServiceAccountKey
  projects : Option (List String)
  project_id : Option String
  use_v2_audit_metadata : Bool
  use_exported_bigquery_audit_metadata : Bool
  table_pattern : AllowDenyPattern
deriving DecidableEq

/-- The warning text logged by the deprecation validator. -/
def project_id_deprecation_warning : String :=
  "bigquery-usage project_id option is deprecated; use projects instead"

/-- Embedding of the validator `note_project_id_deprecation` on a supplied
`project_id` value `v`: it rewrites `values` so that `projects` becomes the
singleton `[v]`, and returns `None` as the new field value.  The result pair
is (new `projects` entry, new `project_id` value). -/
def note_project_id_deprecation (v : String) :
    Option (List String) × Option String :=
  (some [v], none)

/-- Embedding of the validator `platform_is_always_bigquery` on a supplied
`platform` value: the value is replaced by the literal string. -/
def platform_is_always_bigquery (_ : String) : String := "bigquery"

/-- Embedding of the validator `bigquery_platform_instance_is_meaningless` on
a supplied `platform_instance` value: it raises unconditionally. -/
def bigquery_platform_instance_is_meaningless (_ : String) :
    Except ConfigError (Option String) :=
  Except.error ConfigError.platformInstanceMeaningless

/-- Embedding of the validator `use_exported_bigquery_audit_metadata_uses_v2`
on a supplied value `v`, reading the already-validated
`use_v2_audit_metadata` entry of `values`. -/
def use_exported_bigquery_audit_metadata_uses_v2
    (v : Bool) (use_v2_audit_metadata : Bool) : Except ConfigError Bool :=
  if v && !use_v2_audit_metadata then
    Except.error ConfigError.exportedAuditMetadataRequiresV2
  else
    Except.ok v

/-- Final stage of pydantic construction of `BigQueryUsageConfig`, after the
two stages that can raise (the `platform_instance` validator and nested
credential validation) have produced their field values: the remaining fields
are processed in definition order; a validator runs only when its field is
supplied; the `project_id` validator mutates the already-validated `projects`
entry of `values`.  `state` carries ((`projects` entry, `project_id` value),
logged warnings). -/
def BigQueryUsageConfig.parseTail (i : BigQueryUsageConfigInput)
    (platform_instance : Option String)
    (credential : Option GCPServiceAccountKey) :
    Except ConfigError (BigQueryUsageConfig × List String) :=
  let platform : Option String :=
    match i.platform with
    | some v => some (platform_is_always_bigquery v)
    | none => none
  let projects : Option (List String) := i.projects
  let state :=
    match i.project_id with
    | some v => (note_project_id_deprecation v, [project_id_deprecation_warning])
    | none => ((projects, (none : Option String)), ([] : List String))
  let use_v2_audit_metadata : Bool := (i.use_v2_audit_metadata).getD false
  match (match i.use_exported_bigquery_audit_metadata with
         | some v =>
           use_exported_bigquery_audit_metadata_uses_v2 v use_v2_audit_metadata
         | none => Except.ok false) with
  | Except.error e => Except.error e
  | Except.ok use_exported_bigquery_audit_metadata =>
    Except.ok
      ({ platform := platform
         platform_instance := platform_instance
         credential := credential
         projects := state.1.1
         project_id := state.1.2
         use_v2_audit_metadata := use_v2_audit_metadata
         use_exported_bigquery_audit_metadata := use_exported_bigquery_audit_metadata
         table_pattern := (i.table_pattern).getD AllowDenyPattern.allow_all },
       state.2)

/-- Pydantic construction of `BigQueryUsageConfig`: fields are processed in
definition order, inherited fields first.  The `platform_instance` validator
and the nested credential validation can raise; the remaining processing is
`BigQueryUsageConfig.parseTail`.  The result carries the constructed object
together with the list of logged warnings.  Construction of a
`BigQueryUsageConfig` also runs the `GCPSourceConfig.__init__` side effects,
which are embedded separately in `GCPSourceConfig.construct` and do not feed
back into any field value. -/
def BigQueryUsageConfig.parse (i : BigQueryUsageConfigInput) :
    Except ConfigError (BigQueryUsageConfig × List String) :=
  match (match i.platform_instance with
         | some v => bigquery_platform_instance_is_meaningless v
         | none => Except.ok none) with
  | Except.error e => Except.error e
  | Except.ok platform_instance =>
    match (match i.credential with
           | some ci =>
             match GCPServiceAccountKey.parse ci with
             | some k => Except.ok (some k)
             | none => Except.error ConfigError.credentialValidation
           | none => Except.ok none) with
    | Except.error e => Except.error e
    | Except.ok credential =>
      BigQueryUsageConfig.parseTail i platform_instance credential

/-- Embedding of `get_allow_pattern_string`. -/
def BigQueryUsageConfig.get_allow_pattern_string
    (c : BigQueryUsageConfig) : String :=
  if c.table_pattern.truthy then
    String.intercalate "|" c.table_pattern.allow
  else ""

/-- Embedding of `get_deny_pattern_string`. -/
def BigQueryUsageConfig.get_deny_pattern_string
    (c : BigQueryUsageConfig) : String :=
  if c.table_pattern.truthy then
    String.intercalate "|" c.table_pattern.deny
  else ""

/-! ## Concrete test data -/

/-- A complete, valid service-account key input. -/
def sampleKeyInput : GCPServiceAccountKeyInput :=
  { project_id := some "test-project"
    private_key_id := some "key-id-1"
    private_key := some "PRIVATE-KEY-DATA"
    client_email := some "svc@test-project.iam.gserviceaccount.com"
    client_id := some "1234567890" }

/-- The key that `sampleKeyInput` validates to. -/
def sampleKey : GCPServiceAccountKey :=
  { project_id := "test-project"
    private_key_id := "key-id-1"
    private_key := "PRIVATE-KEY-DATA"
    client_email := "svc@test-project.iam.gserviceaccount.com"
    client_id := "1234567890"
    auth_uri := "https://accounts.google.com/o/oauth2/auth"
    token_uri := "https://oauth2.googleapis.com/token"
    auth_provider_x509_cert_url := "https://www.googleapis.com/oauth2/v1/certs"
    type := "service_account"
    client_x509_cert_url := some
      "https://www.googleapis.com/robot/v1/metadata/x509/svc@test-project.iam.gserviceaccount.com" }

/-- A world with no files and no environment variables. -/
def emptyWorld : World := { env := [], files := [], nextTemp := 0 }

/-! ## Theorems and helper lemmas -/

/-- Sanity check: the sample input validates to the sample key. -/
theorem sampleKeyInput_parses :
    GCPServiceAccountKey.parse sampleKeyInput = some sampleKey := rfl

/-- C9: `is_gcs_uri uri` is true exactly when `uri` starts with the literal
prefix `gs://`, i.e. when `uri` is `gs://` followed by some remainder; the
function is total, and on the concrete inputs `gs://bucket/obj`,
`s3://bucket/obj` and the empty string it returns true, false and false. -/
theorem is_gcs_uri_spec (uri : String) :
    (is_gcs_uri uri = true ↔ ∃ rest : String, uri = GCS_PREFIX ++ rest)
    ∧ is_gcs_uri "gs://bucket/obj" = true
    ∧ is_gcs_uri "s3://bucket/obj" = false
    ∧ is_gcs_uri "" = false := by
  refine ⟨?_, by decide, by decide, by decide⟩
  rw [is_gcs_uri, List.isPrefixOf_iff_prefix]
  constructor
  · rintro ⟨t, ht⟩
    refine ⟨String.mk t, String.ext ?_⟩
    simpa using ht.symm
  · rintro ⟨rest, rfl⟩
    exact ⟨rest.toList, by simp [String.toList]⟩

/-- Inversion of a successful `BigQueryUsageConfig.parse`: how each
claim-relevant field of the result is determined by the input. -/
theorem BigQueryUsageConfig.parse_ok_fields (i : BigQueryUsageConfigInput)
    (r : BigQueryUsageConfig × List String)
    (h : BigQueryUsageConfig.parse i = Except.ok r) :
    r.1.platform = (match i.platform with
      | some v => some (platform_is_always_bigquery v)
      | none => none)
    ∧ r.1.platform_instance = none
    ∧ (r.1.projects, r.1.project_id, r.2) = (match i.project_id with
      | some v => ((note_project_id_deprecation v).1,
          (note_project_id_deprecation v).2, [project_id_deprecation_warning])
      | none => (i.projects, none, []))
    ∧ r.1.use_v2_audit_metadata = i.use_v2_audit_metadata.getD false
    ∧ r.1.table_pattern = i.table_pattern.getD AllowDenyPattern.allow_all := by
  unfold BigQueryUsageConfig.parse at h
  cases hpi : i.platform_instance with
  | some v =>
    simp only [hpi, bigquery_platform_instance_is_meaningless] at h
    exact Except.noConfusion h
  | none =>
    simp only [hpi] at h
    cases hc : i.credential with
    | some ci =>
      simp only [hc] at h
      cases hk : GCPServiceAccountKey.parse ci with
      | none =>
        simp only [hk] at h
        exact Except.noConfusion h
      | some k =>
        simp only [hk] at h
        unfold BigQueryUsageConfig.parseTail at h
        cases he : i.use_exported_bigquery_audit_metadata with
        | some v =>
          simp only [he, use_exported_bigquery_audit_metadata_uses_v2] at h
          cases hv : v && !(i.use_v2_audit_metadata.getD false) with
          | true =>
            simp only [hv, if_true] at h
            exact Except.noConfusion h
          | false =>
            simp only [hv, Bool.false_eq_true, if_false, Except.ok.injEq] at h
            subst h
            refine ⟨?_, rfl, ?_, rfl, rfl⟩
            · cases i.platform <;> rfl
            · cases i.project_id <;> rfl
        | none =>
          simp only [he, Except.ok.injEq] at h
          subst h
          refine ⟨?_, rfl, ?_, rfl, rfl⟩
          · cases i.platform <;> rfl
          · cases i.project_id <;> rfl
    | none =>
      simp only [hc] at h
      unfold BigQueryUsageConfig.parseTail at h
      cases he : i.use_exported_bigquery_audit_metadata with
      | some v =>
        simp only [he, use_exported_bigquery_audit_metadata_uses_v2] at h
        cases hv : v && !(i.use_v2_audit_metadata.getD false) with
        | true =>
          simp only [hv, if_true] at h
          exact Except.noConfusion h
        | false =>
          simp only [hv, Bool.false_eq_true, if_false, Except.ok.injEq] at h
          subst h
          refine ⟨?_, rfl, ?_, rfl, rfl⟩
          · cases i.platform <;> rfl
          · cases i.project_id <;> rfl
      | none =>
        simp only [he, Except.ok.injEq] at h
        subst h
        refine ⟨?_, rfl, ?_, rfl, rfl⟩
        · cases i.platform <;> rfl
        · cases i.project_id <;> rfl

/-- Inversion of a successful `GCPServiceAccountKey.parse`: the five required
fields were supplied and the result is the validated record built from the
input. -/
theorem GCPServiceAccountKey.parse_inversion (i : GCPServiceAccountKeyInput)
    (k : GCPServiceAccountKey) (h : GCPServiceAccountKey.parse i = some k) :
    ∃ pid pkid pk ce cid,
      i.project_id = some pid ∧ i.private_key_id = some pkid
      ∧ i.private_key = some pk ∧ i.client_email = some ce
      ∧ i.client_id = some cid
      ∧ k = GCPServiceAccountKey.validate_config
          { project_id := pid
            private_key_id := pkid
            private_key := pk
            client_email := ce
            client_id := cid
            auth_uri := i.auth_uri.getD "https://accounts.google.com/o/oauth2/auth"
            token_uri := i.token_uri.getD "https://oauth2.googleapis.com/token"
            auth_provider_x509_cert_url := i.auth_provider_x509_cert_url.getD
              "https://www.googleapis.com/oauth2/v1/certs"
            type := i.type.getD "service_account"
            client_x509_cert_url := i.client_x509_cert_url } := by
  unfold GCPServiceAccountKey.parse at h
  cases h1 : i.project_id with
  | none =>
    simp only [h1] at h
    exact Option.noConfusion h
  | some pid =>
    cases h2 : i.private_key_id with
    | none =>
      simp only [h1, h2] at h
      exact Option.noConfusion h
    | some pkid =>
      cases h3 : i.private_key with
      | none =>
        simp only [h1, h2, h3] at h
        exact Option.noConfusion h
      | some pk =>
        cases h4 : i.client_email with
        | none =>
          simp only [h1, h2, h3, h4] at h
          exact Option.noConfusion h
        | some ce =>
          cases h5 : i.client_id with
          | none =>
            simp only [h1, h2, h3, h4, h5] at h
            exact Option.noConfusion h
          | some cid =>
            simp only [h1, h2, h3, h4, h5, Option.some.injEq] at h
            exact ⟨pid, pkid, pk, ce, cid, rfl, rfl, rfl, rfl, rfl, h.symm⟩

/-- The cert-url field after the root validator: the supplied value when
present, the derived url otherwise. -/
theorem GCPServiceAccountKey.validate_config_cert (k : GCPServiceAccountKey) :
    (GCPServiceAccountKey.validate_config k).client_x509_cert_url =
      (match k.client_x509_cert_url with
       | some u => some u
       | none =>
         some ("https://www.googleapis.com/robot/v1/metadata/x509/"
           ++ k.client_email)) := by
  cases hcu : k.client_x509_cert_url with
  | none => simp [GCPServiceAccountKey.validate_config, hcu]
  | some u => simp [GCPServiceAccountKey.validate_config, hcu]

/-- The root validator touches only `client_x509_cert_url`. -/
theorem GCPServiceAccountKey.validate_config_fields (k : GCPServiceAccountKey) :
    (GCPServiceAccountKey.validate_config k).project_id = k.project_id
    ∧ (GCPServiceAccountKey.validate_config k).private_key_id = k.private_key_id
    ∧ (GCPServiceAccountKey.validate_config k).private_key = k.private_key
    ∧ (GCPServiceAccountKey.validate_config k).client_email = k.client_email
    ∧ (GCPServiceAccountKey.validate_config k).client_id = k.client_id
    ∧ (GCPServiceAccountKey.validate_config k).auth_uri = k.auth_uri
    ∧ (GCPServiceAccountKey.validate_config k).token_uri = k.token_uri
    ∧ (GCPServiceAccountKey.validate_config k).auth_provider_x509_cert_url
        = k.auth_provider_x509_cert_url
    ∧ (GCPServiceAccountKey.validate_config k).type = k.type := by
  cases hcu : k.client_x509_cert_url <;>
    simp [GCPServiceAccountKey.validate_config, hcu]

/-- Distinct counter values give distinct temporary file names. -/
theorem tempName_injective (m n : Nat) (h : m ≠ n) : tempName m ≠ tempName n := by
  intro he
  apply h
  have hl := congrArg String.length he
  simp only [tempName, String.length] at hl
  simpa using hl

/-! ## Claims about BigQueryUsageConfig -/

/-- C2 (counterexample): constructing a `BigQueryUsageConfig` with `platform`
omitted succeeds and leaves `platform` at the base default `none`, not at
`some "bigquery"`: a pydantic validator without `always=True` is skipped when
no value is supplied, so the claim that the attribute always equals the
literal string fails for the omitted case. -/
theorem platform_omitted_not_bigquery :
    ∃ r, BigQueryUsageConfig.parse {} = Except.ok r
      ∧ r.1.platform ≠ some "bigquery" :=
  ⟨_, rfl, by decide⟩

/-- C2 (amended): for every successful construction of a
`BigQueryUsageConfig`, the `platform` attribute equals `some "bigquery"`
whenever a `platform` value was supplied, whatever that value was; when the
field was omitted it keeps the base default `none`. -/
theorem platform_forced_when_supplied (i : BigQueryUsageConfigInput)
    (r : BigQueryUsageConfig × List String)
    (h : BigQueryUsageConfig.parse i = Except.ok r) :
    r.1.platform = (match i.platform with
      | some _ => some "bigquery"
      | none => none) := by
  have hf := (BigQueryUsageConfig.parse_ok_fields i r h).1
  rw [hf]
  cases i.platform <;> rfl

/-- C2 (witness): constructing with `platform = "snowflake"` yields an object
whose platform is `"bigquery"`. -/
theorem platform_forced_when_supplied_witness :
    ∃ r, BigQueryUsageConfig.parse { platform := some "snowflake" }
        = Except.ok r
      ∧ r.1.platform = some "bigquery" :=
  ⟨_, rfl, platform_forced_when_supplied { platform := some "snowflake" } _ rfl⟩

/-- C3: supplying `project_id = p` on an otherwise successful construction
logs the deprecation warning, rewrites `projects` to the singleton `[p]`, and
clears `project_id` to `none`. -/
theorem project_id_deprecated (i : BigQueryUsageConfigInput) (p : String)
    (r : BigQueryUsageConfig × List String)
    (hp : i.project_id = some p)
    (h : BigQueryUsageConfig.parse i = Except.ok r) :
    r.1.projects = some [p] ∧ r.1.project_id = none
      ∧ project_id_deprecation_warning ∈ r.2 := by
  have hf := (BigQueryUsageConfig.parse_ok_fields i r h).2.2.1
  rw [hp] at hf
  simp only [note_project_id_deprecation, Prod.mk.injEq] at hf
  refine ⟨hf.1, hf.2.1, ?_⟩
  rw [hf.2.2]
  exact List.mem_singleton.mpr rfl

/-- C3 (witness): constructing with `project_id = "p1"` yields
`projects = ["p1"]`, a cleared `project_id`, and the logged warning. -/
theorem project_id_deprecated_witness :
    ∃ r, BigQueryUsageConfig.parse { project_id := some "p1" } = Except.ok r
      ∧ r.1.projects = some ["p1"] ∧ r.1.project_id = none
      ∧ project_id_deprecation_warning ∈ r.2 :=
  ⟨_, rfl, project_id_deprecated { project_id := some "p1" } "p1" _ rfl rfl⟩

/-- C10: when both `projects` and `project_id` are supplied, the deprecation
validator overwrites the already-validated `projects` entry, so the supplied
list is silently discarded in favour of the singleton of `project_id`. -/
theorem projects_discarded_for_project_id (i : BigQueryUsageConfigInput)
    (ps : List String) (p : String) (r : BigQueryUsageConfig × List String)
    (_hps : i.projects = some ps) (hp : i.project_id = some p)
    (h : BigQueryUsageConfig.parse i = Except.ok r) :
    r.1.projects = some [p] := by
  have hf := (BigQueryUsageConfig.parse_ok_fields i r h).2.2.1
  rw [hp] at hf
  simp only [note_project_id_deprecation, Prod.mk.injEq] at hf
  exact hf.1

/-- C10 (witness): supplying `projects = ["p0", "p1"]` together with
`project_id = "p2"` yields `projects = ["p2"]`, not the supplied list. -/
theorem projects_discarded_for_project_id_witness :
    ∃ r, BigQueryUsageConfig.parse
        { projects := some ["p0", "p1"], project_id := some "p2" }
        = Except.ok r
      ∧ r.1.projects = some ["p2"] ∧ r.1.projects ≠ some ["p0", "p1"] :=
  ⟨_, rfl,
   projects_discarded_for_project_id
     { projects := some ["p0", "p1"], project_id := some "p2" }
     ["p0", "p1"] "p2" _ rfl rfl rfl,
   by decide⟩

/-- C4 (counterexample): on a config whose `table_pattern` was left unset the
default is `AllowDenyPattern.allow_all`, whose allow list is the match-all
regex, and a pydantic model instance is always truthy, so
`get_allow_pattern_string` returns `".*"`, not the empty string. -/
theorem allow_pattern_default_not_empty :
    ∃ r, BigQueryUsageConfig.parse {} = Except.ok r
      ∧ r.1.get_allow_pattern_string = ".*"
      ∧ r.1.get_allow_pattern_string ≠ "" :=
  ⟨_, rfl, by decide, by decide⟩

/-- C4 (amended): on a config whose `table_pattern` was not set,
`get_allow_pattern_string` returns `".*"` (the joined allow list of the
default allow-all pattern) and `get_deny_pattern_string` returns `""`; on a
supplied pattern the accessors join `allow` respectively `deny` with `"|"`,
so `allow = ["a", "b"]` gives `"a|b"`. -/
theorem pattern_strings_join (i : BigQueryUsageConfigInput)
    (r : BigQueryUsageConfig × List String)
    (h : BigQueryUsageConfig.parse i = Except.ok r) :
    (i.table_pattern = none →
      r.1.get_allow_pattern_string = ".*"
      ∧ r.1.get_deny_pattern_string = "")
    ∧ ∀ p, i.table_pattern = some p →
      r.1.get_allow_pattern_string = String.intercalate "|" p.allow
      ∧ r.1.get_deny_pattern_string = String.intercalate "|" p.deny := by
  have hf := (BigQueryUsageConfig.parse_ok_fields i r h).2.2.2.2
  constructor
  · intro hn
    rw [hn] at hf
    simp only [Option.getD_none] at hf
    constructor
    · simp only [BigQueryUsageConfig.get_allow_pattern_string, hf]
      decide
    · simp only [BigQueryUsageConfig.get_deny_pattern_string, hf]
      decide
  · intro p hp
    rw [hp] at hf
    simp only [Option.getD_some] at hf
    constructor <;>
      simp [BigQueryUsageConfig.get_allow_pattern_string,
        BigQueryUsageConfig.get_deny_pattern_string, AllowDenyPattern.truthy, hf]

/-- C4 (witness): a supplied pattern with `allow = ["a", "b"]` gives the
joined string `"a|b"` and an empty deny string. -/
theorem pattern_strings_join_witness :
    ∃ r, BigQueryUsageConfig.parse
        { table_pattern := some { allow := ["a", "b"], deny := [] } }
        = Except.ok r
      ∧ r.1.get_allow_pattern_string = "a|b"
      ∧ r.1.get_deny_pattern_string = "" :=
  ⟨_, rfl,
   ((pattern_strings_join
       { table_pattern := some { allow := ["a", "b"], deny := [] } } _ rfl).2
     { allow := ["a", "b"], deny := [] } rfl).1,
   ((pattern_strings_join
       { table_pattern := some { allow := ["a", "b"], deny := [] } } _ rfl).2
     { allow := ["a", "b"], deny := [] } rfl).2⟩

/-- C7: supplying any `platform_instance` value makes construction raise the
configuration error from the `bigquery_platform_instance_is_meaningless`
validator; no object is produced. -/
theorem platform_instance_rejected (i : BigQueryUsageConfigInput) (v : String)
    (h : i.platform_instance = some v) :
    BigQueryUsageConfig.parse i
      = Except.error ConfigError.platformInstanceMeaningless := by
  unfold BigQueryUsageConfig.parse
  simp [h, bigquery_platform_instance_is_meaningless]

/-- C7 (witness): constructing with `platform_instance = "x"` raises the
configuration error. -/
theorem platform_instance_rejected_witness :
    BigQueryUsageConfig.parse { platform_instance := some "x" }
      = Except.error ConfigError.platformInstanceMeaningless :=
  platform_instance_rejected { platform_instance := some "x" } "x" rfl

/-- C8: with `use_exported_bigquery_audit_metadata = True` supplied,
construction with `use_v2_audit_metadata = False` raises a configuration
error, while the identical construction with `use_v2_audit_metadata = True`
succeeds provided the other raising rules pass (no `platform_instance`, a
valid or absent credential). -/
theorem exported_audit_requires_v2 (i : BigQueryUsageConfigInput)
    (hv : i.use_exported_bigquery_audit_metadata = some true) :
    (i.use_v2_audit_metadata = some false →
      ∃ e, BigQueryUsageConfig.parse i = Except.error e)
    ∧ (i.use_v2_audit_metadata = some true →
       i.platform_instance = none →
       (i.credential = none
         ∨ ∃ ci k, i.credential = some ci
             ∧ GCPServiceAccountKey.parse ci = some k) →
       ∃ r, BigQueryUsageConfig.parse i = Except.ok r) := by
  constructor
  · intro h2
    cases hpi : i.platform_instance with
    | some v =>
      refine ⟨ConfigError.platformInstanceMeaningless, ?_⟩
      unfold BigQueryUsageConfig.parse
      simp [hpi, bigquery_platform_instance_is_meaningless]
    | none =>
      cases hc : i.credential with
      | some ci =>
        cases hk : GCPServiceAccountKey.parse ci with
        | none =>
          refine ⟨ConfigError.credentialValidation, ?_⟩
          unfold BigQueryUsageConfig.parse
          simp [hpi, hc, hk]
        | some k =>
          refine ⟨ConfigError.exportedAuditMetadataRequiresV2, ?_⟩
          unfold BigQueryUsageConfig.parse BigQueryUsageConfig.parseTail
          simp [hpi, hc, hk, hv, h2,
            use_exported_bigquery_audit_metadata_uses_v2]
      | none =>
        refine ⟨ConfigError.exportedAuditMetadataRequiresV2, ?_⟩
        unfold BigQueryUsageConfig.parse BigQueryUsageConfig.parseTail
        simp [hpi, hc, hv, h2, use_exported_bigquery_audit_metadata_uses_v2]
  · intro h2 hpi hcred
    rcases hcred with hc | ⟨ci, k, hc, hk⟩
    · unfold BigQueryUsageConfig.parse BigQueryUsageConfig.parseTail
      simp [hpi, hc, hv, h2, use_exported_bigquery_audit_metadata_uses_v2]
    · unfold BigQueryUsageConfig.parse BigQueryUsageConfig.parseTail
      simp [hpi, hc, hk, hv, h2,
        use_exported_bigquery_audit_metadata_uses_v2]

/-- C8 (witness): the two concrete constructions of the claim — exported
audit metadata with v2 off raises, with v2 on succeeds. -/
theorem exported_audit_requires_v2_witness :
    (∃ e, BigQueryUsageConfig.parse
        { use_v2_audit_metadata := some false,
          use_exported_bigquery_audit_metadata := some true }
        = Except.error e)
    ∧ (∃ r, BigQueryUsageConfig.parse
        { use_v2_audit_metadata := some true,
          use_exported_bigquery_audit_metadata := some true }
        = Except.ok r) :=
  ⟨(exported_audit_requires_v2
      { use_v2_audit_metadata := some false,
        use_exported_bigquery_audit_metadata := some true } rfl).1 rfl,
   (exported_audit_requires_v2
      { use_v2_audit_metadata := some true,
        use_exported_bigquery_audit_metadata := some true } rfl).2
     rfl rfl (Or.inl rfl)⟩

/-! ## Claims about GCPServiceAccountKey and GCPSourceConfig -/

/-- C5: for every successfully validated service-account key, the
`client_x509_cert_url` is derived as the fixed robot-metadata url of the
supplied `client_email` when the field was absent, and is kept unchanged
when it was supplied. -/
theorem client_cert_url_spec (i : GCPServiceAccountKeyInput)
    (k : GCPServiceAccountKey) (h : GCPServiceAccountKey.parse i = some k) :
    (i.client_x509_cert_url = none →
      ∃ ce, i.client_email = some ce
        ∧ k.client_x509_cert_url =
            some ("https://www.googleapis.com/robot/v1/metadata/x509/" ++ ce))
    ∧ ∀ u, i.client_x509_cert_url = some u →
        k.client_x509_cert_url = some u := by
  obtain ⟨pid, pkid, pk, ce, cid, h1, h2, h3, h4, h5, hk⟩ :=
    GCPServiceAccountKey.parse_inversion i k h
  subst hk
  constructor
  · intro hn
    refine ⟨ce, h4, ?_⟩
    rw [GCPServiceAccountKey.validate_config_cert]
    simp [hn]
  · intro u hu
    rw [GCPServiceAccountKey.validate_config_cert]
    simp [hu]

/-- C5 (witness): the sample input omits the cert url and the validated key
carries the derived url of its client email. -/
theorem client_cert_url_spec_witness :
    sampleKeyInput.client_x509_cert_url = none
    ∧ ∃ ce, sampleKeyInput.client_email = some ce
        ∧ sampleKey.client_x509_cert_url =
            some ("https://www.googleapis.com/robot/v1/metadata/x509/" ++ ce) :=
  ⟨rfl, (client_cert_url_spec sampleKeyInput sampleKey rfl).1 rfl⟩

/-- Round trip of the serialized dict through JSON parsing and re-validation,
for a key whose cert-url field is filled, as validation guarantees. -/
theorem dict_round_trip (k : GCPServiceAccountKey) (u : String)
    (hcu : k.client_x509_cert_url = some u) :
    ∃ i2, GCPServiceAccountKeyInput.ofJson (Json.obj k.dict) = some i2
      ∧ GCPServiceAccountKey.parse i2 = some k := by
  have hd : GCPServiceAccountKeyInput.ofJson (Json.obj k.dict) = some
      { project_id := some k.project_id
        private_key_id := some k.private_key_id
        private_key := some k.private_key
        client_email := some k.client_email
        client_id := some k.client_id
        auth_uri := some k.auth_uri
        token_uri := some k.token_uri
        auth_provider_x509_cert_url := some k.auth_provider_x509_cert_url
        type := some k.type
        client_x509_cert_url := some u } := by
    simp [GCPServiceAccountKeyInput.ofJson, GCPServiceAccountKey.dict, getStr,
      List.lookup, hcu, optJson]
  refine ⟨_, hd, ?_⟩
  have hrec : GCPServiceAccountKey.mk k.project_id k.private_key_id
      k.private_key k.client_email k.client_id k.auth_uri k.token_uri
      k.auth_provider_x509_cert_url k.type (some u) = k := by
    rw [← hcu]
  simp [GCPServiceAccountKey.parse, GCPServiceAccountKey.validate_config, hrec]

/-- C6: `create_credential_temp_file` extends the file system with a newly
created file — the returned path, fresh with respect to every existing
temp file — whose content is the JSON serialization of the full record dict;
parsing that content back into an input mapping and re-validating it yields
exactly the original record. -/
theorem create_credential_temp_file_spec (i : GCPServiceAccountKeyInput)
    (k : GCPServiceAccountKey) (w : World)
    (h : GCPServiceAccountKey.parse i = some k)
    (hw : ∀ f, f ∈ w.files → ∃ m, m < w.nextTemp ∧ f.1 = tempName m) :
    ((k.create_credential_temp_file w).2.files
        = ((k.create_credential_temp_file w).1, Json.obj k.dict) :: w.files)
    ∧ (∀ f, f ∈ w.files → f.1 ≠ (k.create_credential_temp_file w).1)
    ∧ (∃ i2, GCPServiceAccountKeyInput.ofJson (Json.obj k.dict) = some i2
        ∧ GCPServiceAccountKey.parse i2 = some k) := by
  refine ⟨rfl, ?_, ?_⟩
  · intro f hf
    obtain ⟨m, hm, hname⟩ := hw f hf
    rw [hname]
    exact tempName_injective m w.nextTemp (Nat.ne_of_lt hm)
  · obtain ⟨pid, pkid, pk, ce, cid, h1, h2, h3, h4, h5, hk⟩ :=
      GCPServiceAccountKey.parse_inversion i k h
    have hcu : ∃ u, k.client_x509_cert_url = some u := by
      cases hcc : i.client_x509_cert_url with
      | none =>
        rw [hk, GCPServiceAccountKey.validate_config_cert]
        simp [hcc]
      | some u =>
        rw [hk, GCPServiceAccountKey.validate_config_cert]
        simp [hcc]
    obtain ⟨u, hu⟩ := hcu
    exact dict_round_trip k u hu

/-- C6 (witness): the sample key written to a fresh world round-trips. -/
theorem create_credential_temp_file_spec_witness :
    ((sampleKey.create_credential_temp_file emptyWorld).2.files
        = ((sampleKey.create_credential_temp_file emptyWorld).1,
            Json.obj sampleKey.dict) :: emptyWorld.files)
    ∧ (∃ i2, GCPServiceAccountKeyInput.ofJson (Json.obj sampleKey.dict)
          = some i2
        ∧ GCPServiceAccountKey.parse i2 = some sampleKey) :=
  ⟨(create_credential_temp_file_spec sampleKeyInput sampleKey emptyWorld rfl
      (by simp [emptyWorld])).1,
   (create_credential_temp_file_spec sampleKeyInput sampleKey emptyWorld rfl
      (by simp [emptyWorld])).2.2⟩

/-- C1: constructing a `GCPSourceConfig` with a credential that validates
sets the `GOOGLE_APPLICATION_CREDENTIALS` environment variable to the path
returned by `create_credential_temp_file`; constructing without a credential
succeeds and leaves the world unchanged; a failed validation produces no
object and leaves the world unchanged. -/
theorem gcp_source_config_env (i : GCPSourceConfigInput) (w : World) :
    (i.credential = none →
      (GCPSourceConfig.construct i w).2 = w
      ∧ (GCPSourceConfig.construct i w).1.isSome = true)
    ∧ ∀ ci, i.credential = some ci →
        ((GCPSourceConfig.construct i w).1 = none →
          (GCPSourceConfig.construct i w).2 = w)
        ∧ ∀ cfg, (GCPSourceConfig.construct i w).1 = some cfg →
            ∃ k, GCPServiceAccountKey.parse ci = some k
              ∧ cfg._credentials_path
                  = some (k.create_credential_temp_file w).1
              ∧ (GCPSourceConfig.construct i w).2.env.lookup
                    "GOOGLE_APPLICATION_CREDENTIALS"
                  = some (k.create_credential_temp_file w).1 := by
  constructor
  · intro hc
    have e : GCPSourceConfig.construct i w =
        (some { platform := i.platform, platform_instance := i.platform_instance,
                credential := none, _credentials_path := none }, w) := by
      unfold GCPSourceConfig.construct
      rw [hc]
    rw [e]
    exact ⟨rfl, rfl⟩
  · intro ci hc
    cases hk : GCPServiceAccountKey.parse ci with
    | none =>
      have e : GCPSourceConfig.construct i w = (none, w) := by
        unfold GCPSourceConfig.construct
        rw [hc]
        simp only [hk]
      rw [e]
      exact ⟨fun _ => rfl, fun cfg hcfg => Option.noConfusion hcfg⟩
    | some k =>
      have e : GCPSourceConfig.construct i w =
          (some { platform := i.platform, platform_instance := i.platform_instance,
                  credential := some k,
                  _credentials_path := some (k.create_credential_temp_file w).1 },
           { (k.create_credential_temp_file w).2 with
               env := envSet (k.create_credential_temp_file w).2.env
                 "GOOGLE_APPLICATION_CREDENTIALS"
                 (k.create_credential_temp_file w).1 }) := by
        unfold GCPSourceConfig.construct
        rw [hc]
        simp only [hk]
      rw [e]
      refine ⟨fun hcon => Option.noConfusion hcon, fun cfg hcfg => ?_⟩
      injection hcfg with h2
      subst h2
      exact ⟨k, rfl, rfl, rfl⟩

/-- C1 (witness): constructing from the sample credential in the empty world
sets the environment variable to the created temp path; constructing with no
credential leaves the empty world unchanged. -/
theorem gcp_source_config_env_witness :
    (∃ k, GCPServiceAccountKey.parse sampleKeyInput = some k
      ∧ ((GCPSourceConfig.construct { credential := some sampleKeyInput }
            emptyWorld).1.getD
          { platform := none, platform_instance := none, credential := none,
            _credentials_path := none })._credentials_path
          = some (k.create_credential_temp_file emptyWorld).1
      ∧ (GCPSourceConfig.construct { credential := some sampleKeyInput }
            emptyWorld).2.env.lookup "GOOGLE_APPLICATION_CREDENTIALS"
          = some (k.create_credential_temp_file emptyWorld).1)
    ∧ (GCPSourceConfig.construct {} emptyWorld).2 = emptyWorld :=
  ⟨(gcp_source_config_env { credential := some sampleKeyInput }
      emptyWorld).2 sampleKeyInput rfl |>.2 _ rfl,
   ((gcp_source_config_env {} emptyWorld).1 rfl).1⟩
